import Mathlib

/-!
Verification of the xiaomei repository (single file
`src/xiaomei/agents/yangmei/base.py`): a single-round CTF-solving agent that
builds a prompt, calls a chat model, dispatches `execute_code` tool calls
into a Docker sandbox, and calls the model a second time.

The Python source is shallowly embedded below.  External collaborators
(the chat model, the Docker exec endpoint, the process environment) are
passed in as explicit function parameters; the effects the orchestration
performs on them (model invocations, tool dispatches, Docker API calls)
are recorded in explicit traces so that temporal claims can be stated.
-/

/-- The two environment values read at module load
(`os.environ["DOCKER_HOST"]`, `os.environ["DOCKER_SANDBOX_CONTAINER_NAME"]`). -/
structure Config where
  host : String
  containerName : String
deriving DecidableEq

/-- Errors of module-load configuration: `os.environ[k]` raises `KeyError k`
when `k` is absent. -/
inductive ConfigError
  | missingKey (key : String)
deriving DecidableEq

/-- Embedding of the module-level statements
`DOCKER_HOST = os.environ["DOCKER_HOST"]` and
`DOCKER_SANDBOX_CONTAINER_NAME = os.environ["DOCKER_SANDBOX_CONTAINER_NAME"]`,
run at import time, before any `run` invocation.  `env` is the process
environment; a missing key is a raised `KeyError`, modelled as `Except.error`. -/
def moduleInit (env : String → Option String) : Except ConfigError Config :=
  match env "DOCKER_HOST" with
  | none => Except.error (ConfigError.missingKey "DOCKER_HOST")
  | some h =>
    match env "DOCKER_SANDBOX_CONTAINER_NAME" with
    | none => Except.error (ConfigError.missingKey "DOCKER_SANDBOX_CONTAINER_NAME")
    | some n => Except.ok { host := h, containerName := n }

/-- The single-quote character, written by code point to keep source text plain. -/
def squoteChar : Char := Char.ofNat 39

/-- The double-quote character, written by code point. -/
def dquoteChar : Char := Char.ofNat 34

/-- Characters CPython `shlex.quote` leaves unquoted: ASCII word characters
(letters, digits, underscore) plus at-sign, percent, plus, equals, colon,
comma, dot, slash and hyphen, per its unsafe-character regex with `re.ASCII`. -/
def shlexSafe (c : Char) : Bool :=
  c.isAlphanum || c == Char.ofNat 95 || c == '@' || c == '%' || c == '+' ||
    c == '=' || c == ':' || c == ',' || c == '.' || c == '/' || c == '-'

/-- What CPython `str.replace` substitutes for each single quote inside a
quoted word: quote, double quote, quote, double quote, quote. -/
def shlexEscapedQuote : String :=
  String.singleton squoteChar ++ String.singleton dquoteChar ++
    String.singleton squoteChar ++ String.singleton dquoteChar ++
    String.singleton squoteChar

/-- Embedding of CPython `shlex.quote`: the empty string becomes two quotes,
a string of only safe characters is returned unchanged, and anything else is
wrapped in single quotes with every embedded single quote escaped. -/
def shlexQuote (s : String) : String :=
  if s = "" then String.singleton squoteChar ++ String.singleton squoteChar
  else if s.data.all shlexSafe then s
  else
    String.singleton squoteChar ++
      String.join (s.data.map fun c =>
        if c = squoteChar then shlexEscapedQuote else String.singleton c) ++
      String.singleton squoteChar

/-- A demultiplexed `exec_run(..., demux=True)` result: each stream is either
absent (`None` in Python, when the process wrote nothing to it) or a byte
string, modelled here by its decoded text. -/
structure ExecResult where
  stdout : Option String
  stderr : Option String
deriving DecidableEq

/-- Errors `execute_code` itself can raise: `bytes(None)` raises `TypeError`
when stderr was falsy and stdout is `None`. -/
inductive ToolError
  | typeErrorNoneToBytes
deriving DecidableEq

/-- Embedding of `return bytes(stdout).decode("utf-8")`: `bytes(None)` raises
`TypeError`, otherwise the decoded text is returned. -/
def bytesDecode : Option String → Except ToolError String
  | none => Except.error ToolError.typeErrorNoneToBytes
  | some s => Except.ok s

/-- Embedding of the tail of `execute_code`:
`if stderr: return bytes(stderr).decode(...)` then
`return bytes(stdout).decode(...)`.  Python truthiness of `stderr` is: not
`None` and not the empty byte string. -/
def selectOutput (r : ExecResult) : Except ToolError String :=
  match r.stderr with
  | some e => if e = "" then bytesDecode r.stdout else Except.ok e
  | none => bytesDecode r.stdout

/-- The Docker API calls `execute_code` performs, in order.
`createContainer` is a capability of the runtime that the tool never uses;
it is listed so that "does not create the container" is statable. -/
inductive DockerAction
  | connect (host : String)
  | getContainer (name : String)
  | createContainer (name : String)
  | execRun (name : String) (cmd : String)
deriving DecidableEq

/-- The command string built by
`f"python3 -c {shlex.quote(code)}"`. -/
def execCmd (code : String) : String := "python3 -c " ++ shlexQuote code

/-- Embedding of the `execute_code` tool.  `dockerExec` is the external
container runtime: the demultiplexed streams it produces for a given command
line.  The returned pair is the trace of Docker API calls performed and the
outcome (`Except`, since the tool can raise). -/
def execute_code (cfg : Config) (dockerExec : String → ExecResult)
    (code : String) : List DockerAction × Except ToolError String :=
  let cmd := execCmd code
  ([DockerAction.connect cfg.host,
    DockerAction.getContainer cfg.containerName,
    DockerAction.execRun cfg.containerName cmd],
   selectOutput (dockerExec cmd))

/-- A Tool Call carried on an AI message: name, single string argument
(the code), and call identifier. -/
structure ToolCall where
  name : String
  code : String
  id : String
deriving DecidableEq

/-- An AI reply: text content plus zero or more pending Tool Calls. -/
structure AIReply where
  content : String
  tool_calls : List ToolCall
deriving DecidableEq

/-- Conversation messages: the tagged variants used by `run`. -/
inductive Message
  | system (content : String)
  | human (content : String)
  | ai (reply : AIReply)
  | toolResult (content : String) (tool_call_id : String)
deriving DecidableEq

/-- External-effect events of one `run` invocation: a remote model
invocation, or a dispatch of one tool call into the sandbox. -/
inductive Event
  | modelCall
  | toolDispatch (call : ToolCall)
deriving DecidableEq

/-- Failures that abort `run`: the `Exception(f"Unknown tool: ...")` raise,
or an error propagating out of `execute_code`. -/
inductive RunError
  | unknownTool (name : String)
  | toolError (e : ToolError)
deriving DecidableEq

/-- The fixed system persona message of `YangmeiAgent.run`. -/
def systemPrompt : String :=
  "あなたは、CTF問題を解くことに特化したセキュリティのスペシャリストです。\n" ++
  "あなたの主な役割は、与えられた問題とリクエストから実行するべきPythonコードを生成し、その実行結果からCTF問題に回答する手掛かりを得ることです。\n" ++
  "\n" ++
  "## あなたの人格\n" ++
  "- 「Yangmei(陽美)」という名前の陽気で明るい女の子です。食欲旺盛で疲れると食べ物を欲します\n" ++
  "- 元々中国に住んでいましたが、CTFの専門家としての名を広げるために日本にやってきました\n" ++
  "- そのため、彼女は「〜アル!!」「〜ヨ!!」など、全ての語尾がカタカナになってしまう癖を持っています\n" ++
  "- あまり丁寧な言い回しはせず、フランクで砕けた口調で話します\n" ++
  "\n" ++
  "## コード生成および回答時の注意点\n" ++
  "- コード生成 → コード実行のやり取りは1回のみ実行できます\n" ++
  "- ツールは標準出力のみを提供します。そのため回答生成プロセスに必要な情報はなるべくprintしてください\n" ++
  "- また、Pythonコードを生成する上での思考プロセスや実行結果から得られた考察も回答に含めてください\n" ++
  "- 実行できないPythonコード、あるいはセキュリティ的にリスクのあるPythonコードは生成しないでください\n" ++
  "- どの回答においても彼女の人格を保ったまま回答してください。一般的な女性の口調に戻ることは避けてください\n"

/-- The fixed text of the user-message template before `{question}`. -/
def userPre : String :=
  "以下に解決したいCTFの問題と、あなたが何をするべきかのタスクが与えられます。\n" ++
  "こちらを参考にして、生成すべきPythonコードをツールの引数として提供し、実行結果を元に最終的な回答を生成してください。\n" ++
  "\n" ++
  "## 問題文\n"

/-- The fixed text of the user-message template between `{question}` and
`{task}`. -/
def userMid : String :=
  "\n" ++
  "\n" ++
  "## タスクの内容\n"

/-- The User message built by `run`: the f-string template with `question`
and `task` interpolated verbatim; nothing follows `task`. -/
def userMessage (question task : String) : String :=
  userPre ++ question ++ userMid ++ task

/-- Intermediate state of the `for call in message.tool_calls` loop:
the conversation built so far, the events performed so far, and the raised
error, if any (a raise terminates the loop at once). -/
structure DispatchState where
  msgs : List Message
  evs : List Event
  err : Option RunError
deriving DecidableEq

/-- Embedding of the tool-dispatch loop of `run`: for each call in order,
`match call["name"]`, dispatch `execute_code` on the recognized name and
append the resulting Tool-Result message, and raise `Unknown tool` on any
other name.  An error out of `execute_code` also propagates (its dispatch
has still happened, so its event is recorded). -/
def dispatchCalls (cfg : Config) (dockerExec : String → ExecResult) :
    List ToolCall → DispatchState → DispatchState
  | [], s => s
  | c :: rest, s =>
    if c.name = "execute_code" then
      match (execute_code cfg dockerExec c.code).2 with
      | Except.ok text =>
        dispatchCalls cfg dockerExec rest
          { msgs := s.msgs ++ [Message.toolResult text c.id],
            evs := s.evs ++ [Event.toolDispatch c],
            err := none }
      | Except.error e =>
        { s with evs := s.evs ++ [Event.toolDispatch c],
                 err := some (RunError.toolError e) }
    else
      { s with err := some (RunError.unknownTool c.name) }

/-- Embedding of `YangmeiAgent.run`.  `chat` is the remote model
(`self._chat.invoke`), a function of the full conversation; `dockerExec` is
the container runtime behind `execute_code`.  Returns the outcome (the full
conversation on success, the raised error otherwise) together with the trace
of external events performed, in order. -/
def run (cfg : Config) (dockerExec : String → ExecResult)
    (chat : List Message → AIReply) (question task : String) :
    Except RunError (List Message) × List Event :=
  let msgs0 := [Message.system systemPrompt,
                Message.human (userMessage question task)]
  let first := chat msgs0
  let msgs1 := msgs0 ++ [Message.ai first]
  let st := dispatchCalls cfg dockerExec first.tool_calls
    { msgs := msgs1, evs := [Event.modelCall], err := none }
  match st.err with
  | some e => (Except.error e, st.evs)
  | none =>
    let second := chat st.msgs
    (Except.ok (st.msgs ++ [Message.ai second]), st.evs ++ [Event.modelCall])

/-- Embedding of `ChatOpenAI` as configured state: model name, temperature
(zero in the source), and the tools bound to it. -/
structure ChatOpenAI where
  model : String
  temperature : Nat
  tools : List String
deriving DecidableEq

/-- `bind_tools` returns a new client with the tools attached; it does not
mutate its receiver. -/
def bind_tools (c : ChatOpenAI) (ts : List String) : ChatOpenAI :=
  { c with tools := c.tools ++ ts }

/-- Embedding of `YangmeiAgent.__init__`: constructs the client, evaluates
`self._chat.bind_tools([execute_code])` as a bare expression statement whose
value is discarded, and stores the original client in `self._chat`. -/
def yangmeiInitChat : ChatOpenAI :=
  let chat : ChatOpenAI := { model := "gpt-4o", temperature := 0, tools := [] }
  let _ := bind_tools chat ["execute_code"]
  chat

/-! ## Helper observations on traces and conversations -/

/-- Counts the occurrences of `pat` in `l`: the number of positions at which
`pat` appears as a contiguous block. -/
def countOccur (l pat : List Char) : Nat :=
  ((List.range (l.length + 1)).filter fun i => pat.isPrefixOf (l.drop i)).length

/-- Whether an event is a remote model invocation. -/
def Event.isModelCall : Event → Bool
  | Event.modelCall => true
  | Event.toolDispatch _ => false

/-- Number of remote model invocations recorded in a trace. -/
def modelCalls (evs : List Event) : Nat :=
  (evs.filter Event.isModelCall).length

/-- The tool calls dispatched into the sandbox, in trace order. -/
def dispatchedCalls (evs : List Event) : List ToolCall :=
  evs.filterMap fun e =>
    match e with
    | Event.toolDispatch c => some c
    | Event.modelCall => none

/-- The payload of a successful tool outcome (unused default on errors;
only applied under a success hypothesis). -/
def okText : Except ToolError String → String
  | Except.ok s => s
  | Except.error _ => ""

lemma modelCalls_append (a b : List Event) :
    modelCalls (a ++ b) = modelCalls a + modelCalls b := by
  simp [modelCalls, List.filter_append]

lemma dispatchedCalls_append (a b : List Event) :
    dispatchedCalls (a ++ b) = dispatchedCalls a ++ dispatchedCalls b := by
  simp [dispatchedCalls]

lemma dispatchedCalls_map (calls : List ToolCall) :
    dispatchedCalls (calls.map Event.toolDispatch) = calls := by
  induction calls with
  | nil => rfl
  | cons c rest ih => simp [dispatchedCalls] at ih ⊢; exact ih

/-- The dispatch loop performs no model calls: it only adds tool-dispatch
events to the trace. -/
lemma dispatch_modelCalls (cfg : Config) (dex : String → ExecResult)
    (calls : List ToolCall) (s : DispatchState) :
    modelCalls (dispatchCalls cfg dex calls s).evs = modelCalls s.evs := by
  induction calls generalizing s with
  | nil => rfl
  | cons c rest ih =>
    by_cases hc : c.name = "execute_code"
    · rcases hE : (execute_code cfg dex c.code).2 with e | t
      · simp [dispatchCalls, hc, hE, modelCalls_append, modelCalls,
          Event.isModelCall]
      · rw [dispatchCalls]
        simp only [hc, if_true, hE]
        rw [ih]
        simp [modelCalls_append, modelCalls, Event.isModelCall]
    · simp [dispatchCalls, hc]

/-- When every call is recognized and every sandbox execution succeeds, the
dispatch loop appends one Tool-Result per call and one dispatch event per
call, in order, and raises nothing. -/
lemma dispatch_all_ok (cfg : Config) (dex : String → ExecResult)
    (calls : List ToolCall) (s : DispatchState)
    (hname : ∀ c ∈ calls, c.name = "execute_code")
    (hok : ∀ c ∈ calls, ∃ t, (execute_code cfg dex c.code).2 = Except.ok t)
    (hs : s.err = none) :
    dispatchCalls cfg dex calls s =
      { msgs := s.msgs ++ calls.map fun c =>
          Message.toolResult (okText (execute_code cfg dex c.code).2) c.id,
        evs := s.evs ++ calls.map Event.toolDispatch,
        err := none } := by
  induction calls generalizing s with
  | nil =>
    cases s with
    | mk m e er =>
      simp only [DispatchState.mk.injEq] at hs ⊢
      simp [dispatchCalls, hs]
  | cons c rest ih =>
    have hc := hname c (by simp)
    obtain ⟨t, hE⟩ := hok c (by simp)
    rw [dispatchCalls]
    simp only [hc, if_true, hE]
    rw [ih _ (fun x hx => hname x (by simp [hx]))
        (fun x hx => hok x (by simp [hx])) rfl]
    simp [okText, hE, List.append_assoc]

/-- Inversion: if the dispatch loop raised nothing, every call was
recognized and succeeded, and the final state has the canonical shape. -/
lemma dispatch_err_none (cfg : Config) (dex : String → ExecResult)
    (calls : List ToolCall) (s : DispatchState)
    (hs : s.err = none)
    (h : (dispatchCalls cfg dex calls s).err = none) :
    (∀ c ∈ calls, c.name = "execute_code") ∧
    dispatchCalls cfg dex calls s =
      { msgs := s.msgs ++ calls.map fun c =>
          Message.toolResult (okText (execute_code cfg dex c.code).2) c.id,
        evs := s.evs ++ calls.map Event.toolDispatch,
        err := none } := by
  induction calls generalizing s with
  | nil =>
    refine ⟨by simp, ?_⟩
    cases s with
    | mk m e er =>
      simp only [DispatchState.mk.injEq] at hs ⊢
      simp [dispatchCalls, hs]
  | cons c rest ih =>
    by_cases hc : c.name = "execute_code"
    · rcases hE : (execute_code cfg dex c.code).2 with e | t
      · rw [dispatchCalls] at h
        simp [hc, hE] at h
      · rw [dispatchCalls] at h
        simp only [hc, if_true, hE] at h
        obtain ⟨hrest, heq⟩ := ih _ rfl h
        refine ⟨?_, ?_⟩
        · intro x hx
          rcases List.mem_cons.mp hx with hx | hx
          · exact hx ▸ hc
          · exact hrest x hx
        · rw [dispatchCalls]
          simp only [hc, if_true, hE]
          rw [heq]
          simp [okText, hE, List.append_assoc]
    · rw [dispatchCalls] at h
      simp [hc] at h

/-- When the earlier recognized calls all succeed and some call carries an
unrecognized name, the loop raises the unknown-tool error of the first such
call. -/
lemma dispatch_find_unknown (cfg : Config) (dex : String → ExecResult)
    (calls : List ToolCall) (s : DispatchState) (c₀ : ToolCall)
    (hok : ∀ c ∈ calls, c.name = "execute_code" →
      ∃ t, (execute_code cfg dex c.code).2 = Except.ok t)
    (hfind : calls.find? (fun c => !(c.name == "execute_code")) = some c₀) :
    (dispatchCalls cfg dex calls s).err =
      some (RunError.unknownTool c₀.name) := by
  induction calls generalizing s with
  | nil => simp [List.find?] at hfind
  | cons c rest ih =>
    by_cases hc : c.name = "execute_code"
    · have hp : (fun x : ToolCall => !(x.name == "execute_code")) c = false := by
        simp [hc]
      rw [List.find?_cons_of_neg _ (by simp [hp])] at hfind
      obtain ⟨t, hE⟩ := hok c (by simp) hc
      rw [dispatchCalls]
      simp only [hc, if_true, hE]
      exact ih _ (fun x hx h => hok x (by simp [hx]) h) hfind
    · have hp : (fun x : ToolCall => !(x.name == "execute_code")) c = true := by
        simp [hc]
      rw [List.find?_cons_of_pos _ (by simp [hc])] at hfind
      have hcc : c = c₀ := by simpa using hfind
      subst hcc
      rw [dispatchCalls]
      simp [hc]

/-- Any explicit decomposition yields at least one occurrence. -/
lemma countOccur_pos (a pat b : List Char) :
    1 ≤ countOccur (a ++ (pat ++ b)) pat := by
  have hdrop : (a ++ (pat ++ b)).drop a.length = pat ++ b :=
    List.drop_left a (pat ++ b)
  have hpre : pat.isPrefixOf ((a ++ (pat ++ b)).drop a.length) = true := by
    rw [hdrop]
    exact List.isPrefixOf_iff_prefix.mpr (List.prefix_append pat b)
  have hmem : a.length ∈ (List.range ((a ++ (pat ++ b)).length + 1)).filter
      (fun i => pat.isPrefixOf ((a ++ (pat ++ b)).drop i)) := by
    refine List.mem_filter.mpr ⟨List.mem_range.mpr ?_, hpre⟩
    simp only [List.length_append]
    omega
  have hpos := List.length_pos.mpr (List.ne_nil_of_mem hmem)
  rw [countOccur]
  omega

/-- The characters of the built User message, decomposed around `question`. -/
lemma userMessage_data_q (question task : String) :
    (userMessage question task).data =
      userPre.data ++ (question.data ++ (userMid.data ++ task.data)) := by
  simp [userMessage, String.data_append]

/-- The characters of the built User message, decomposed around `task`. -/
lemma userMessage_data_t (question task : String) :
    (userMessage question task).data =
      (userPre.data ++ question.data ++ userMid.data) ++ (task.data ++ []) := by
  simp [userMessage, String.data_append]

deriving instance DecidableEq for Except

/-! ## Concrete fixtures used by witness theorems -/

/-- A concrete configuration. -/
def wCfg : Config := { host := "tcp://localhost:2375", containerName := "sandbox" }

/-- A recognized tool call. -/
def wCall1 : ToolCall := { name := "execute_code", code := "print(2+2)", id := "call_1" }

/-- An unrecognized tool call. -/
def wCall2 : ToolCall := { name := "delete_all_files", code := "", id := "call_2" }

/-- A sandbox whose executions print `4` and write nothing to stderr. -/
def wExecOk : String → ExecResult := fun _ => { stdout := some "4\n", stderr := none }

/-- A sandbox whose executions write to both streams. -/
def wExecBoth : String → ExecResult := fun _ => { stdout := some "A", stderr := some "B" }

/-- A sandbox whose executions write to neither stream (both demuxed streams
absent). -/
def wExecSilent : String → ExecResult := fun _ => { stdout := none, stderr := none }

/-- A model that requests one recognized tool call on its first reply and
none on its second. -/
def wChat1 : List Message → AIReply := fun msgs =>
  if msgs.length = 2 then { content := "running", tool_calls := [wCall1] }
  else { content := "done", tool_calls := [] }

/-- A model whose first reply carries a recognized call followed by an
unrecognized one. -/
def wChat2 : List Message → AIReply := fun msgs =>
  if msgs.length = 2 then { content := "running", tool_calls := [wCall1, wCall2] }
  else { content := "done", tool_calls := [] }

/-! ## Claim theorems -/

/-- C1: the tool returns the decoded standard-error text whenever the
execution produced a non-empty standard-error stream, discarding standard
output (the outcome does not depend on `stdout` in that case, since `dex` is
arbitrary); otherwise it returns the decoded standard-output text; in
particular stdout `A` with non-empty stderr `B` yields `B`, and stdout `A`
with empty stderr yields `A`. -/
theorem C1_output_selection (cfg : Config) (dex : String → ExecResult)
    (code e s : String) :
    ((dex (execCmd code)).stderr = some e → e ≠ "" →
      (execute_code cfg dex code).2 = Except.ok e) ∧
    (((dex (execCmd code)).stderr = none ∨ (dex (execCmd code)).stderr = some "") →
      (dex (execCmd code)).stdout = some s →
      (execute_code cfg dex code).2 = Except.ok s) ∧
    selectOutput { stdout := some "A", stderr := some "B" } = Except.ok "B" ∧
    selectOutput { stdout := some "A", stderr := some "" } = Except.ok "A" := by
  refine ⟨?_, ?_, by decide, by decide⟩
  · intro hserr hne
    simp [execute_code, selectOutput, hserr, hne]
  · intro hserr hsout
    rcases hserr with hserr | hserr <;>
      simp [execute_code, selectOutput, hserr, hsout, bytesDecode]

/-- Witness for C1 at a concrete sandbox writing `A` to stdout and `B` to
stderr: the tool returns `B`. -/
theorem C1_output_selection_witness :
    ((wExecBoth (execCmd "print(2+2)")).stderr = some "B" ∧ ("B" : String) ≠ "") ∧
    (execute_code wCfg wExecBoth "print(2+2)").2 = Except.ok "B" :=
  ⟨⟨rfl, by decide⟩,
   (C1_output_selection wCfg wExecBoth "print(2+2)" "B" "A").1 rfl (by decide)⟩

/-- C2: one invocation of `run` performs at most two remote model calls,
whatever the model replies and however many tool calls its first message
carries; no third call is ever made. -/
theorem C2_at_most_two_model_calls (cfg : Config) (dex : String → ExecResult)
    (chat : List Message → AIReply) (question task : String) :
    modelCalls (run cfg dex chat question task).2 ≤ 2 := by
  simp only [run]
  split
  all_goals simp only [modelCalls_append, dispatch_modelCalls]
  all_goals decide

/-- C6: both the connection endpoint `DOCKER_HOST` and the container name
`DOCKER_SANDBOX_CONTAINER_NAME` are read from the process environment at
module load, before any `run` invocation, and both are required: if either is
absent, module initialisation fails with a `KeyError`; when both are present
it yields exactly the two environment values. -/
theorem C6_required_env (env : String → Option String) :
    ((env "DOCKER_HOST" = none ∨ env "DOCKER_SANDBOX_CONTAINER_NAME" = none) →
      ∃ k, moduleInit env = Except.error (ConfigError.missingKey k)) ∧
    (∀ h n, env "DOCKER_HOST" = some h →
      env "DOCKER_SANDBOX_CONTAINER_NAME" = some n →
      moduleInit env = Except.ok { host := h, containerName := n }) := by
  constructor
  · intro habs
    rcases habs with habs | habs
    · exact ⟨"DOCKER_HOST", by simp [moduleInit, habs]⟩
    · rcases hh : env "DOCKER_HOST" with _ | h
      · exact ⟨"DOCKER_HOST", by simp [moduleInit, hh]⟩
      · exact ⟨"DOCKER_SANDBOX_CONTAINER_NAME", by simp [moduleInit, hh, habs]⟩
  · intro h n hh hn
    simp [moduleInit, hh, hn]

/-- Witness for C6: with an empty environment, module initialisation fails
with a missing-key error. -/
theorem C6_required_env_witness :
    ((fun _ : String => (none : Option String)) "DOCKER_HOST" = none) ∧
    ∃ k, moduleInit (fun _ => none) = Except.error (ConfigError.missingKey k) :=
  ⟨rfl, (C6_required_env (fun _ => none)).1 (Or.inl rfl)⟩

/-- C7: for every input string the tool issues exactly one connect, one
container lookup by the configured name, and one exec of the single command
line built by shell-escaping the code behind the interpreter flag; it never
issues a container-creation call. -/
theorem C7_single_escaped_exec (cfg : Config) (dex : String → ExecResult)
    (code : String) :
    (execute_code cfg dex code).1 =
      [DockerAction.connect cfg.host,
       DockerAction.getContainer cfg.containerName,
       DockerAction.execRun cfg.containerName ("python3 -c " ++ shlexQuote code)] ∧
    (∀ n, DockerAction.createContainer n ∉ (execute_code cfg dex code).1) := by
  refine ⟨rfl, ?_⟩
  intro n hmem
  simp [execute_code, execCmd] at hmem

/-- C8: when the execution produced no standard-error bytes (stream absent or
empty) and the demultiplexed standard-output stream is absent, the tool
raises `TypeError` (from `bytes(None)`) instead of returning empty text. -/
theorem C8_none_stdout_raises (cfg : Config) (dex : String → ExecResult)
    (code : String)
    (hserr : (dex (execCmd code)).stderr = none ∨
      (dex (execCmd code)).stderr = some "")
    (hsout : (dex (execCmd code)).stdout = none) :
    (execute_code cfg dex code).2 =
      Except.error ToolError.typeErrorNoneToBytes := by
  rcases hserr with hserr | hserr <;>
    simp [execute_code, selectOutput, hserr, hsout, bytesDecode]

/-- Witness for C8: a silent execution (both streams absent) makes the tool
raise. -/
theorem C8_none_stdout_raises_witness :
    ((wExecSilent (execCmd "pass")).stderr = none ∧
      (wExecSilent (execCmd "pass")).stdout = none) ∧
    (execute_code wCfg wExecSilent "pass").2 =
      Except.error ToolError.typeErrorNoneToBytes :=
  ⟨⟨rfl, rfl⟩, C8_none_stdout_raises wCfg wExecSilent "pass" (Or.inl rfl) rfl⟩

/-- C10: the constructor evaluates `bind_tools` for its side effect only and
discards its value; the stored chat client is the originally constructed one,
carrying no bound tools, unlike the discarded bound client. -/
theorem C10_bind_tools_discarded :
    yangmeiInitChat = { model := "gpt-4o", temperature := 0, tools := [] } ∧
    yangmeiInitChat.tools = [] ∧
    (bind_tools { model := "gpt-4o", temperature := 0, tools := [] }
      ["execute_code"]).tools = ["execute_code"] ∧
    yangmeiInitChat ≠ bind_tools yangmeiInitChat ["execute_code"] := by
  refine ⟨rfl, rfl, rfl, ?_⟩
  decide

/-- The trace fragment a lone model call contributes dispatches nothing. -/
lemma dispatchedCalls_modelCall : dispatchedCalls [Event.modelCall] = [] := rfl

/-- The empty trace dispatches nothing. -/
lemma dispatchedCalls_nil : dispatchedCalls [] = [] := rfl

/-- A leading model-call event contributes no dispatched call. -/
lemma dispatchedCalls_cons_model (evs : List Event) :
    dispatchedCalls (Event.modelCall :: evs) = dispatchedCalls evs := rfl

/-- C3: when every tool call on the first AI message is recognized (and the
sandbox executions succeed), each call is dispatched exactly once, in the
order the model returned them; when some call carries a different name, `run`
aborts with the unknown-tool failure (no partial conversation is returned)
after exactly one model call, so before the second model call. -/
theorem C3_dispatch_once_unknown_halts (cfg : Config)
    (dex : String → ExecResult) (chat : List Message → AIReply)
    (question task : String) (first : AIReply)
    (hfirst : chat [Message.system systemPrompt,
      Message.human (userMessage question task)] = first)
    (hok : ∀ c ∈ first.tool_calls, c.name = "execute_code" →
      ∃ t, (execute_code cfg dex c.code).2 = Except.ok t) :
    ((∀ c ∈ first.tool_calls, c.name = "execute_code") →
      dispatchedCalls (run cfg dex chat question task).2 = first.tool_calls) ∧
    (∀ c₀, first.tool_calls.find? (fun c => !(c.name == "execute_code")) = some c₀ →
      (run cfg dex chat question task).1 =
        Except.error (RunError.unknownTool c₀.name) ∧
      modelCalls (run cfg dex chat question task).2 = 1) := by
  constructor
  · intro hname
    have hall := dispatch_all_ok cfg dex first.tool_calls
      { msgs := [Message.system systemPrompt,
          Message.human (userMessage question task), Message.ai first],
        evs := [Event.modelCall], err := none }
      hname (fun c hc => hok c hc (hname c hc)) rfl
    simp only [run]
    rw [hfirst]
    simp only [List.cons_append, List.nil_append]
    rw [hall]
    simp only []
    simp [dispatchedCalls_append, dispatchedCalls_map, dispatchedCalls_modelCall,
      dispatchedCalls_cons_model, dispatchedCalls_nil]
  · intro c₀ hfind
    have herr := dispatch_find_unknown cfg dex first.tool_calls
      { msgs := [Message.system systemPrompt,
          Message.human (userMessage question task), Message.ai first],
        evs := [Event.modelCall], err := none }
      c₀ hok hfind
    constructor
    · simp only [run]
      rw [hfirst]
      simp only [List.cons_append, List.nil_append]
      simp [herr]
    · simp only [run]
      rw [hfirst]
      simp only [List.cons_append, List.nil_append]
      simp only [herr]
      rw [dispatch_modelCalls]
      rfl

/-- Witness for C3: one recognized call is dispatched exactly once. -/
theorem C3_dispatch_once_unknown_halts_witness :
    (∀ c ∈ ([wCall1] : List ToolCall), c.name = "execute_code") ∧
    dispatchedCalls (run wCfg wExecOk wChat1 "q" "t").2 = [wCall1] :=
  ⟨by decide,
   (C3_dispatch_once_unknown_halts wCfg wExecOk wChat1 "q" "t"
      { content := "running", tool_calls := [wCall1] } (by decide)
      (by
        intro c hc hname
        have hcc : c = wCall1 := by simpa using hc
        subst hcc
        exact ⟨"4\n", by decide⟩)).1 (by decide)⟩

/-- C4: a successful `run` returns exactly System, User, AI(first), one
Tool-Result per tool call of the first AI message, then AI(second); with zero
tool calls the conversation has length 4 and nothing is dispatched. -/
theorem C4_conversation_shape (cfg : Config) (dex : String → ExecResult)
    (chat : List Message → AIReply) (question task : String) (first : AIReply)
    (msgs : List Message)
    (hfirst : chat [Message.system systemPrompt,
      Message.human (userMessage question task)] = first)
    (hrun : (run cfg dex chat question task).1 = Except.ok msgs) :
    ∃ tms second,
      msgs = [Message.system systemPrompt,
              Message.human (userMessage question task),
              Message.ai first] ++ tms ++ [Message.ai second] ∧
      tms.length = first.tool_calls.length ∧
      (∀ m ∈ tms, ∃ txt id, m = Message.toolResult txt id) ∧
      (first.tool_calls = [] → msgs.length = 4 ∧
        dispatchedCalls (run cfg dex chat question task).2 = []) := by
  simp only [run] at hrun ⊢
  rw [hfirst] at hrun ⊢
  simp only [List.cons_append, List.nil_append] at hrun ⊢
  rcases herr : (dispatchCalls cfg dex first.tool_calls
      { msgs := [Message.system systemPrompt,
          Message.human (userMessage question task), Message.ai first],
        evs := [Event.modelCall], err := none }).err with _ | e
  · obtain ⟨hall, heq⟩ := dispatch_err_none cfg dex first.tool_calls
      { msgs := [Message.system systemPrompt,
          Message.human (userMessage question task), Message.ai first],
        evs := [Event.modelCall], err := none } rfl herr
    simp only [herr] at hrun
    rw [heq] at hrun
    simp only [Except.ok.injEq] at hrun
    refine ⟨first.tool_calls.map fun c =>
        Message.toolResult (okText (execute_code cfg dex c.code).2) c.id,
      chat ([Message.system systemPrompt,
          Message.human (userMessage question task), Message.ai first] ++
        first.tool_calls.map fun c =>
          Message.toolResult (okText (execute_code cfg dex c.code).2) c.id),
      ?_, by simp, ?_, ?_⟩
    · rw [← hrun]
      simp
    · intro m hm
      obtain ⟨c, hc, hmc⟩ := List.mem_map.mp hm
      exact ⟨okText (execute_code cfg dex c.code).2, c.id, hmc.symm⟩
    · intro hzero
      constructor
      · rw [← hrun, hzero]
        simp
      · simp only [herr]
        rw [heq]
        simp [hzero, dispatchedCalls_append, dispatchedCalls_modelCall,
          dispatchedCalls_cons_model, dispatchedCalls_nil]
  · simp [herr] at hrun

set_option maxRecDepth 8192 in
/-- Witness for C4: a run with one recognized tool call succeeds and returns
the five-message conversation with one Tool-Result. -/
theorem C4_conversation_shape_witness :
    ∃ tms second,
      ([Message.system systemPrompt, Message.human (userMessage "q" "t"),
        Message.ai { content := "running", tool_calls := [wCall1] },
        Message.toolResult "4\n" "call_1",
        Message.ai { content := "done", tool_calls := [] }] : List Message) =
        [Message.system systemPrompt, Message.human (userMessage "q" "t"),
         Message.ai { content := "running", tool_calls := [wCall1] }] ++
          tms ++ [Message.ai second] ∧
      tms.length =
        ({ content := "running", tool_calls := [wCall1] } : AIReply).tool_calls.length ∧
      (∀ m ∈ tms, ∃ txt id, m = Message.toolResult txt id) ∧
      (({ content := "running", tool_calls := [wCall1] } : AIReply).tool_calls = [] →
        ([Message.system systemPrompt, Message.human (userMessage "q" "t"),
          Message.ai { content := "running", tool_calls := [wCall1] },
          Message.toolResult "4\n" "call_1",
          Message.ai { content := "done", tool_calls := [] }] : List Message).length = 4 ∧
        dispatchedCalls (run wCfg wExecOk wChat1 "q" "t").2 = []) :=
  C4_conversation_shape wCfg wExecOk wChat1 "q" "t"
    { content := "running", tool_calls := [wCall1] }
    [Message.system systemPrompt, Message.human (userMessage "q" "t"),
     Message.ai { content := "running", tool_calls := [wCall1] },
     Message.toolResult "4\n" "call_1",
     Message.ai { content := "done", tool_calls := [] }]
    (by decide) (by decide)

/-- C9: when the first AI message carries a recognized call followed by an
unrecognized one, the recognized call is dispatched and its Tool-Result is
appended to the loop state before the unknown-tool failure is raised; the
`run` failure is thus not atomic with respect to the earlier dispatch. -/
theorem C9_dispatch_before_unknown (cfg : Config) (dex : String → ExecResult)
    (chat : List Message → AIReply) (question task : String) (first : AIReply)
    (c1 c2 : ToolCall) (rest : List ToolCall) (txt : String)
    (hfirst : chat [Message.system systemPrompt,
      Message.human (userMessage question task)] = first)
    (hcalls : first.tool_calls = c1 :: c2 :: rest)
    (h1 : c1.name = "execute_code")
    (h2 : c2.name ≠ "execute_code")
    (hE : (execute_code cfg dex c1.code).2 = Except.ok txt) :
    (run cfg dex chat question task).1 =
      Except.error (RunError.unknownTool c2.name) ∧
    (run cfg dex chat question task).2 =
      [Event.modelCall, Event.toolDispatch c1] ∧
    (dispatchCalls cfg dex first.tool_calls
      { msgs := [Message.system systemPrompt,
          Message.human (userMessage question task), Message.ai first],
        evs := [Event.modelCall], err := none }).msgs =
      [Message.system systemPrompt, Message.human (userMessage question task),
       Message.ai first, Message.toolResult txt c1.id] := by
  have key : ∀ s : DispatchState,
      dispatchCalls cfg dex (c1 :: c2 :: rest) s =
        { msgs := s.msgs ++ [Message.toolResult txt c1.id],
          evs := s.evs ++ [Event.toolDispatch c1],
          err := some (RunError.unknownTool c2.name) } := by
    intro s
    rw [dispatchCalls]
    simp only [h1, if_true, hE]
    rw [dispatchCalls]
    simp [h2]
  refine ⟨?_, ?_, ?_⟩
  · simp only [run]
    rw [hfirst]
    simp only [List.cons_append, List.nil_append, hcalls, key]
  · simp only [run]
    rw [hfirst]
    simp only [List.cons_append, List.nil_append, hcalls, key]
  · rw [hcalls, key]
    simp

set_option maxRecDepth 8192 in
/-- Witness for C9: with calls `execute_code` then `delete_all_files`, the
first call is dispatched, its Tool-Result is appended to the loop state, and
`run` then fails with the unknown-tool error after one model call. -/
theorem C9_dispatch_before_unknown_witness :
    (run wCfg wExecOk wChat2 "q" "t").1 =
      Except.error (RunError.unknownTool wCall2.name) ∧
    (run wCfg wExecOk wChat2 "q" "t").2 =
      [Event.modelCall, Event.toolDispatch wCall1] ∧
    (dispatchCalls wCfg wExecOk
      ({ content := "running", tool_calls := [wCall1, wCall2] } : AIReply).tool_calls
      { msgs := [Message.system systemPrompt, Message.human (userMessage "q" "t"),
          Message.ai { content := "running", tool_calls := [wCall1, wCall2] }],
        evs := [Event.modelCall], err := none }).msgs =
      [Message.system systemPrompt, Message.human (userMessage "q" "t"),
       Message.ai { content := "running", tool_calls := [wCall1, wCall2] },
       Message.toolResult "4\n" wCall1.id] :=
  C9_dispatch_before_unknown wCfg wExecOk wChat2 "q" "t"
    { content := "running", tool_calls := [wCall1, wCall2] }
    wCall1 wCall2 [] "4\n" (by decide) rfl (by decide) (by decide) (by decide)

set_option maxRecDepth 8192 in
/-- Counterexample to C5: for the non-empty inputs question = a newline and
task = `x`, the built User message does not contain the question exactly
once — the template itself contains newlines, so the occurrence count is not
one. -/
theorem C5_counterexample_newline :
    (("\n" : String) ≠ "" ∧ ("x" : String) ≠ "") ∧
    countOccur (userMessage "\n" "x").data ("\n" : String).data ≠ 1 := by
  refine ⟨⟨by decide, by decide⟩, ?_⟩
  decide

/-- C5 (amended): for all non-empty `question` and `task`, the built User
message contains each of them verbatim at least once (the System message is
fixed and takes no part); the exactly-once count of the original claim fails
for inputs that also occur in the fixed template. -/
theorem C5_verbatim_at_least_once (question task : String)
    (hq : question ≠ "") (ht : task ≠ "") :
    1 ≤ countOccur (userMessage question task).data question.data ∧
    1 ≤ countOccur (userMessage question task).data task.data := by
  constructor
  · rw [userMessage_data_q]
    exact countOccur_pos _ _ _
  · rw [userMessage_data_t]
    exact countOccur_pos _ _ _

set_option maxRecDepth 8192 in
/-- Witness for the amended C5 at concrete non-empty inputs. -/
theorem C5_verbatim_at_least_once_witness :
    (("q" : String) ≠ "" ∧ ("t" : String) ≠ "") ∧
    (1 ≤ countOccur (userMessage "q" "t").data ("q" : String).data ∧
     1 ≤ countOccur (userMessage "q" "t").data ("t" : String).data) :=
  ⟨⟨by decide, by decide⟩,
   C5_verbatim_at_least_once "q" "t" (by decide) (by decide)⟩
